import Mathlib

/-
  Verification development for the KSTM AI service (FastAPI RAG backend).

  Shallow embedding of the repository's document-ingestion loaders
  (src/libs/load_and_process_{documents,pdf,csv,txt,json}.py), the
  vector-store adapter (src/config/db.py), the chain builder
  (src/static/resources.py) and the two HTTP endpoints (src/main.py).

  External libraries (selenium, bs4, PyMuPDF, the text splitter, the
  Neo4j vector store, the hosted LLM, redis) are modelled as environment
  parameters returning `Except`-style results; the repository's own glue
  code (cache logic, exception handling, metadata, endpoint control flow)
  is translated statement by statement.
-/

/-! ## MD5 (hashlib.md5(...).hexdigest() as used by every create_cache_key) -/

def b32 : Nat := 4294967296

/-- Rotate a 32-bit value (represented as a Nat below 2^32) left by n bits. -/
def rotl32 (x n : Nat) : Nat :=
  (((x <<< n) % b32) ||| (x >>> (32 - n)))

/-- The 64 MD5 sine-derived round constants. -/
def md5K : List Nat :=
  [0xd76aa478, 0xe8c7b756, 0x242070db, 0xc1bdceee,
   0xf57c0faf, 0x4787c62a, 0xa8304613, 0xfd469501,
   0x698098d8, 0x8b44f7af, 0xffff5bb1, 0x895cd7be,
   0x6b901122, 0xfd987193, 0xa679438e, 0x49b40821,
   0xf61e2562, 0xc040b340, 0x265e5a51, 0xe9b6c7aa,
   0xd62f105d, 0x02441453, 0xd8a1e681, 0xe7d3fbc8,
   0x21e1cde6, 0xc33707d6, 0xf4d50d87, 0x455a14ed,
   0xa9e3e905, 0xfcefa3f8, 0x676f02d9, 0x8d2a4c8a,
   0xfffa3942, 0x8771f681, 0x6d9d6122, 0xfde5380c,
   0xa4beea44, 0x4bdecfa9, 0xf6bb4b60, 0xbebfbc70,
   0x289b7ec6, 0xeaa127fa, 0xd4ef3085, 0x04881d05,
   0xd9d4d039, 0xe6db99e5, 0x1fa27cf8, 0xc4ac5665,
   0xf4292244, 0x432aff97, 0xab9423a7, 0xfc93a039,
   0x655b59c3, 0x8f0ccc92, 0xffeff47d, 0x85845dd1,
   0x6fa87e4f, 0xfe2ce6e0, 0xa3014314, 0x4e0811a1,
   0xf7537e82, 0xbd3af235, 0x2ad7d2bb, 0xeb86d391]

/-- The per-round left-rotation amounts of MD5. -/
def md5S : List Nat :=
  [7, 12, 17, 22, 7, 12, 17, 22, 7, 12, 17, 22, 7, 12, 17, 22,
   5, 9, 14, 20, 5, 9, 14, 20, 5, 9, 14, 20, 5, 9, 14, 20,
   4, 11, 16, 23, 4, 11, 16, 23, 4, 11, 16, 23, 4, 11, 16, 23,
   6, 10, 15, 21, 6, 10, 15, 21, 6, 10, 15, 21, 6, 10, 15, 21]

/-- One MD5 round: state (a,b,c,d), message words M, round index i. -/
def md5Round (M : List Nat) (st : Nat × Nat × Nat × Nat) (i : Nat) :
    Nat × Nat × Nat × Nat :=
  let (a, b, c, d) := st
  let fg : Nat × Nat :=
    if i < 16 then ((b &&& c) ||| ((b ^^^ 0xffffffff) &&& d), i)
    else if i < 32 then ((d &&& b) ||| ((d ^^^ 0xffffffff) &&& c), (5 * i + 1) % 16)
    else if i < 48 then (b ^^^ c ^^^ d, (3 * i + 5) % 16)
    else (c ^^^ (b ||| (d ^^^ 0xffffffff)), (7 * i) % 16)
  let f := (fg.1 + a + md5K.getD i 0 + M.getD fg.2 0) % b32
  (d, (b + rotl32 f (md5S.getD i 0)) % b32, b, c)

/-- Process one 512-bit chunk, given as 16 little-endian 32-bit words. -/
def md5Chunk (st : Nat × Nat × Nat × Nat) (M : List Nat) :
    Nat × Nat × Nat × Nat :=
  let (a, b, c, d) := (List.range 64).foldl (md5Round M) st
  ((st.1 + a) % b32, (st.2.1 + b) % b32, (st.2.2.1 + c) % b32, (st.2.2.2 + d) % b32)

/-- Little-endian byte encoding of n, k bytes. -/
def toLEBytes (n k : Nat) : List Nat :=
  (List.range k).map (fun i => (n >>> (8 * i)) % 256)

/-- MD5 padding: a 0x80 byte, zeros to 56 mod 64, then the 64-bit bit length. -/
def md5Pad (msg : List Nat) : List Nat :=
  let len := msg.length
  let padZeros := (55 + 64 - len % 64) % 64
  msg ++ [0x80] ++ List.replicate padZeros 0 ++ toLEBytes ((8 * len) % 2 ^ 64) 8

/-- Group bytes into little-endian 32-bit words. -/
def bytesToWords : List Nat → List Nat
  | b0 :: b1 :: b2 :: b3 :: rest =>
      (b0 + 256 * b1 + 65536 * b2 + 16777216 * b3) :: bytesToWords rest
  | _ => []

/-- Split a byte list into 64-byte chunks (the input length is a multiple of 64). -/
def chunks64 (bs : List Nat) : List (List Nat) :=
  (List.range (bs.length / 64)).map (fun i => (bs.drop (64 * i)).take 64)

/-- The MD5 digest of a byte list, as 16 bytes. -/
def md5Bytes (msg : List Nat) : List Nat :=
  let blocks := (chunks64 (md5Pad msg)).map bytesToWords
  let st := blocks.foldl md5Chunk (0x67452301, 0xefcdab89, 0x98badcfe, 0x10325476)
  toLEBytes st.1 4 ++ toLEBytes st.2.1 4 ++ toLEBytes st.2.2.1 4 ++ toLEBytes st.2.2.2 4

/-- UTF-8 encoding of one character (str.encode() in Python). -/
def utf8EncodeChar (c : Char) : List Nat :=
  let n := c.toNat
  if n < 0x80 then [n]
  else if n < 0x800 then [0xc0 + n / 64, 0x80 + n % 64]
  else if n < 0x10000 then [0xe0 + n / 4096, 0x80 + (n / 64) % 64, 0x80 + n % 64]
  else [0xf0 + n / 262144, 0x80 + (n / 4096) % 64, 0x80 + (n / 64) % 64, 0x80 + n % 64]

/-- UTF-8 encoding of a string as a byte list. -/
def utf8Encode (s : String) : List Nat :=
  (s.data.map utf8EncodeChar).flatten

/-- Lower-case hex digit. -/
def hexChar (n : Nat) : Char :=
  if n < 10 then Char.ofNat (48 + n) else Char.ofNat (87 + n)

/-- Two-digit lower-case hex form of a byte. -/
def byteToHex (b : Nat) : String :=
  String.mk [hexChar (b / 16), hexChar (b % 16)]

/-- hashlib.md5(s.encode()).hexdigest() -/
def md5Hex (s : String) : String :=
  String.join ((md5Bytes (utf8Encode s)).map byteToHex)

/-! ## Python pathlib: str(Path(p)) on a POSIX system.
    Used by the text and JSON loaders, which convert the incoming path with
    Path(file_path) before hashing. Spurious slashes and single dots are
    collapsed; a trailing slash is dropped; double dots are kept; an exact
    double leading slash is preserved. -/

def splitOnSlash : List Char → List (List Char)
  | [] => [[]]
  | c :: cs =>
      let r := splitOnSlash cs
      if c = '/' then [] :: r
      else (c :: r.headD []) :: r.tail

def joinSlash : List (List Char) → List Char
  | [] => []
  | [p] => p
  | p :: ps => p ++ '/' :: joinSlash ps

/-- Number of leading slashes of the raw path string. -/
def leadSlashes : List Char → Nat
  | c :: cs => if c = '/' then leadSlashes cs + 1 else 0
  | [] => 0

def pathStr (s : String) : String :=
  let cs := s.data
  let parts := (splitOnSlash cs).filter (fun p => !(p.isEmpty || p == ['.']))
  let root : List Char :=
    if leadSlashes cs = 2 then ['/', '/']
    else if 1 ≤ leadSlashes cs then ['/'] else []
  if parts.isEmpty then
    (if root.isEmpty then "." else String.mk root)
  else String.mk (root ++ joinSlash parts)

example : pathStr "docs//a.txt" = "docs/a.txt" := by decide
example : pathStr "a/" = "a" := by decide
example : pathStr "" = "." := by decide
example : pathStr "/a" = "/a" := by decide
example : pathStr "a/./b" = "a/b" := by decide
example : pathStr "a/../b" = "a/../b" := by decide

example : md5Hex "" = "d41d8cd98f00b204e9800998ecf8427e" := by decide
example : md5Hex "abc" = "900150983cd24fb0d6963f7d28e17f72" := by decide
example : md5Hex "docs/a.txt" = "f1a683dcc60e9f5759f1397a347d8722" := by decide

/-- Python str.strip() with no arguments: remove leading and trailing whitespace. -/
def pyStrip (s : String) : String :=
  String.mk (((s.data.dropWhile Char.isWhitespace).reverse.dropWhile Char.isWhitespace).reverse)

/-! ## Data model -/

/-- A langchain Document: page_content plus a string-keyed metadata dict. -/
structure Document where
  page_content : String
  metadata : List (String × String)
deriving DecidableEq, Repr

/-- Python exception classes that the loaders and endpoints distinguish. -/
inductive ExcKind
  | pickleError
  | eofError
  | attributeError
  | keyError
  | osError
  | connectionError
  | valueError
  | otherError
deriving DecidableEq, Repr

/-- A raised Python exception: either a fastapi/starlette HTTPException or an
ordinary exception carrying its message. -/
inductive PyExc
  | httpException (status : Nat) (detail : String)
  | exc (kind : ExcKind) (msg : String)
deriving DecidableEq, Repr

/-- str(e) in Python: starlette's HTTPException renders as "status: detail",
an ordinary exception as its message. -/
def PyExc.str : PyExc → String
  | .httpException status detail => toString status ++ ": " ++ detail
  | .exc _ msg => msg

/-- Does `except (pickle.PickleError, EOFError)` catch this exception? -/
def PyExc.caughtByPickleEOF : PyExc → Bool
  | .exc .pickleError _ => true
  | .exc .eofError _ => true
  | _ => false

/-- Association-list get, the model of Python dict lookup / redis GET. -/
def assocGet [DecidableEq α] : List (α × β) → α → Option β
  | [], _ => none
  | (k, v) :: rest, key => if k = key then some v else assocGet rest key

/-- Association-list set, the model of Python dict assignment / redis SET /
overwriting a cache file: replaces an existing binding, else appends. -/
def assocSet [DecidableEq α] : List (α × β) → α → β → List (α × β)
  | [], key, v => [(key, v)]
  | (k, w) :: rest, key, v =>
      if k = key then (k, v) :: rest else (k, w) :: assocSet rest key v

/-- State of one on-disk cache directory: for each cache-file name, either the
chunk list its pickle deserializes to, or the exception raised on reading it.
A missing key is a missing cache file. -/
inductive CacheEntry
  | good (docs : List Document)
  | corrupt (e : PyExc)
deriving DecidableEq, Repr

abbrev Cache := List (String × CacheEntry)

/-! ## Web loader: src/libs/load_and_process_documents.py -/

namespace Web

/-- create_cache_key(url) = hashlib.md5(url.encode()).hexdigest() -/
def create_cache_key (url : String) : String := md5Hex url

/-- External effects of the web loader: selenium fetch (may raise), bs4
extraction, the langchain splitter, and whether the cache write succeeds. -/
structure Env where
  fetch : String → Except PyExc String
  extract : String → String
  split : Nat → Nat → String → List String
  writeOk : Bool

/-- The fetch-process-cache body of load_and_process_documents (the code after
the cache lookup). Returns (result, new cache state, whether a fetch was
attempted). The outer `except Exception` turns any fetch failure into [];
a failed cache write is logged and the fresh chunks are still returned. -/
def loadBody (env : Env) (cache : Cache) (url : String)
    (chunk_size chunk_overlap : Nat) : Except PyExc (List Document) × Cache × Bool :=
  match env.fetch url with
  | .error _ => (.ok [], cache, true)
  | .ok html_content =>
    if html_content = "" then (.ok [], cache, true)
    else
      let structured_text := env.extract html_content
      let processed_documents := env.split chunk_size chunk_overlap structured_text
      if processed_documents.isEmpty then (.ok [], cache, true)
      else
        let doc_objects := processed_documents.map
          (fun chunk => Document.mk chunk [("source_url", url)])
        let cache' := if env.writeOk
          then assocSet cache (create_cache_key url) (.good doc_objects)
          else cache
        (.ok doc_objects, cache', true)

/-- load_and_process_documents as written, before the functools.lru_cache
wrapper: cache lookup first. Only pickle.PickleError and EOFError are caught
on a failed cache read; any other exception raised there propagates. -/
def loadInner (env : Env) (cache : Cache) (url : String)
    (chunk_size chunk_overlap : Nat) (refresh : Bool) :
    Except PyExc (List Document) × Cache × Bool :=
  match (if refresh then none else assocGet cache (create_cache_key url)) with
  | some (.good cached_data) => (.ok cached_data, cache, false)
  | some (.corrupt e) =>
      if e.caughtByPickleEOF then loadBody env cache url chunk_size chunk_overlap
      else (.error e, cache, false)
  | none => loadBody env cache url chunk_size chunk_overlap

/-- functools.lru_cache memoizes on the full argument tuple, refresh flag
included. Modelled as an unbounded map (maxsize=32 only ever evicts entries,
which cannot create extra hits). Exceptions are not memoized. -/
abbrev LruKey := String × Nat × Nat × Bool

abbrev LruMap := List (LruKey × List Document)

/-- The function imported by main.py: the lru_cache wrapper around the loader.
Returns (result, lru state, cache state, whether the source was fetched). -/
def load_and_process_documents (env : Env) (lru : LruMap) (cache : Cache)
    (url : String) (chunk_size chunk_overlap : Nat) (refresh : Bool) :
    Except PyExc (List Document) × LruMap × Cache × Bool :=
  match assocGet lru (url, chunk_size, chunk_overlap, refresh) with
  | some docs => (.ok docs, lru, cache, false)
  | none =>
      match loadInner env cache url chunk_size chunk_overlap refresh with
      | (.ok docs, cache', fetched) =>
          (.ok docs, assocSet lru (url, chunk_size, chunk_overlap, refresh) docs,
           cache', fetched)
      | (.error e, cache', fetched) => (.error e, lru, cache', fetched)

end Web

/-! ## PDF loader: src/libs/load_an_process_pdf.py -/

namespace Pdf

/-- create_cache_key(source) = md5 hex of the raw source string. -/
def create_cache_key (source : String) : String := md5Hex source

/-- External effects: download_pdf_content and read_local_pdf catch their own
exceptions and return None; extract_text_from_pdf catches and returns "". -/
structure Env where
  download : String → Option (List Nat)
  readLocal : String → Option (List Nat)
  extract : List Nat → String
  split : Nat → Nat → String → List String
  writeOk : Bool

/-- The body of load_and_process_pdf after the cache lookup. There is no
outer try here: download/extract failures are already degraded to None / ""
inside the helpers. -/
def loadBody (env : Env) (cache : Cache) (source : String)
    (chunk_size chunk_overlap : Nat) (is_local_file : Bool) :
    Except PyExc (List Document) × Cache :=
  let pdf_bytes := if is_local_file then env.readLocal source else env.download source
  match pdf_bytes with
  | none => (.ok [], cache)
  | some bs =>
    if bs.isEmpty then (.ok [], cache)
    else
      let text := env.extract bs
      if pyStrip text = "" then (.ok [], cache)
      else
        let chunks := env.split chunk_size chunk_overlap text
        let doc_objects := chunks.map (fun chunk => Document.mk chunk [("source", source)])
        let cache' := if env.writeOk
          then assocSet cache (create_cache_key source) (.good doc_objects)
          else cache
        (.ok doc_objects, cache')

/-- load_and_process_pdf: cache lookup catches only pickle.PickleError and
EOFError; other cache-read exceptions propagate. -/
def load_and_process_pdf (env : Env) (cache : Cache) (source : String)
    (chunk_size chunk_overlap : Nat) (refresh is_local_file : Bool) :
    Except PyExc (List Document) × Cache :=
  match (if refresh then none else assocGet cache (create_cache_key source)) with
  | some (.good cached_data) => (.ok cached_data, cache)
  | some (.corrupt e) =>
      if e.caughtByPickleEOF then loadBody env cache source chunk_size chunk_overlap is_local_file
      else (.error e, cache)
  | none => loadBody env cache source chunk_size chunk_overlap is_local_file

end Pdf

/-! ## Text loader: src/libs/load_and_process_txt.py -/

namespace Txt

/-- create_cache_key(path) = md5 hex; the loader passes str(Path(file_path)). -/
def create_cache_key (path : String) : String := md5Hex path

/-- External effects: reading the text file (exceptions land in the loader's
outer handler), the splitter, and whether the cache write succeeds. -/
structure Env where
  read : String → Except PyExc String
  split : Nat → Nat → String → List String
  writeOk : Bool

/-- The read-process-cache body of load_and_process_txt, wrapped in
`except Exception` which degrades any read failure to []. -/
def loadBody (env : Env) (cache : Cache) (path : String)
    (chunk_size chunk_overlap : Nat) : List Document × Cache :=
  match env.read path with
  | .error _ => ([], cache)
  | .ok text =>
      let chunks := env.split chunk_size chunk_overlap text
      let documents := chunks.map (fun chunk => Document.mk chunk [("source_file", path)])
      let cache' := if env.writeOk
        then assocSet cache (create_cache_key path) (.good documents)
        else cache
      (documents, cache')

/-- load_and_process_txt: file_path = Path(file_path) first, so the hashed
string is the normalized path. Cache-read failures of any kind are caught
(`except Exception`) and fall through to reprocessing. -/
def load_and_process_txt (env : Env) (cache : Cache) (file_path : String)
    (chunk_size chunk_overlap : Nat) (refresh : Bool) : List Document × Cache :=
  let path := pathStr file_path
  match (if refresh then none else assocGet cache (create_cache_key path)) with
  | some (.good cached) => (cached, cache)
  | some (.corrupt _) => loadBody env cache path chunk_size chunk_overlap
  | none => loadBody env cache path chunk_size chunk_overlap

end Txt

/-! ## JSON loader: src/libs/load_and_process_json.py -/

namespace Jsonl

/-- create_cache_key(path) = md5 hex; the loader passes str(Path(file_path)). -/
def create_cache_key (path : String) : String := md5Hex path

/-- External effects: read_json_file (json.load plus flatten_json, producing
one row string per entry; exceptions land in the outer handler). -/
structure Env where
  read : String → Except PyExc (List String)
  split : Nat → Nat → String → List String
  writeOk : Bool

/-- The read-process-cache body of load_and_process_json, wrapped in
`except Exception` which degrades any read failure to []. -/
def loadBody (env : Env) (cache : Cache) (path : String)
    (chunk_size chunk_overlap : Nat) : List Document × Cache :=
  match env.read path with
  | .error _ => ([], cache)
  | .ok row_texts =>
      let full_text := String.intercalate "\n" row_texts
      let chunks := env.split chunk_size chunk_overlap full_text
      let documents := chunks.map (fun chunk => Document.mk chunk [("source_file", path)])
      let cache' := if env.writeOk
        then assocSet cache (create_cache_key path) (.good documents)
        else cache
      (documents, cache')

/-- load_and_process_json: file_path = Path(file_path) first; cache-read
failures of any kind fall through to reprocessing. -/
def load_and_process_json (env : Env) (cache : Cache) (file_path : String)
    (chunk_size chunk_overlap : Nat) (refresh : Bool) : List Document × Cache :=
  let path := pathStr file_path
  match (if refresh then none else assocGet cache (create_cache_key path)) with
  | some (.good cached) => (cached, cache)
  | some (.corrupt _) => loadBody env cache path chunk_size chunk_overlap
  | none => loadBody env cache path chunk_size chunk_overlap

end Jsonl

/-! ## CSV loader: src/libs/load_and_process_csv.py -/

namespace Csv

/-- create_cache_key(path, delimiter) = md5 hex of f-string path_delimiter. -/
def create_cache_key (path delimiter : String) : String :=
  md5Hex (path ++ "_" ++ delimiter)

/-- External effects: read_csv_file (local file or URL; exceptions land in
the outer handler; a non-200 URL fetch yields [] rows). -/
structure Env where
  readRows : String → String → Except PyExc (List String)
  split : Nat → Nat → String → List String
  writeOk : Bool

/-- The read-process-cache body of load_and_process_csv, wrapped in
`except Exception` which degrades any read failure to []. -/
def loadBody (env : Env) (cache : Cache) (file_path delimiter : String)
    (chunk_size chunk_overlap : Nat) : List Document × Cache :=
  match env.readRows file_path delimiter with
  | .error _ => ([], cache)
  | .ok row_texts =>
      let full_text := String.intercalate "\n" row_texts
      let chunks := env.split chunk_size chunk_overlap full_text
      let documents := chunks.map (fun chunk => Document.mk chunk [("source_file", file_path)])
      let cache' := if env.writeOk
        then assocSet cache (create_cache_key file_path delimiter) (.good documents)
        else cache
      (documents, cache')

/-- load_and_process_csv: no Path normalization here; cache-read failures of
any kind are caught (`except Exception`) and fall through to reprocessing. -/
def load_and_process_csv (env : Env) (cache : Cache) (file_path delimiter : String)
    (chunk_size chunk_overlap : Nat) (refresh : Bool) : List Document × Cache :=
  match (if refresh then none else assocGet cache (create_cache_key file_path delimiter)) with
  | some (.good cached) => (cached, cache)
  | some (.corrupt _) => loadBody env cache file_path delimiter chunk_size chunk_overlap
  | none => loadBody env cache file_path delimiter chunk_size chunk_overlap

end Csv

/-! ## Vector store adapter: src/config/db.py -/

namespace Db

/-- create_vectordb(documents, url): sets doc.metadata["source_url"] = url on
every chunk and inserts the documents into the shared Neo4j index. The
insertion and embedding are external; the model yields the enriched list
that is handed to Neo4jVector.from_documents. -/
def create_vectordb (documents : List Document) (url : String) : List Document :=
  documents.map (fun doc => { doc with metadata := assocSet doc.metadata "source_url" url })

/-- A loaded vector index is the multiset of chunks it stores. -/
abbrev VectorDb := List Document

/-- Does a chunk satisfy a metadata filter dict (every key-value pair matches)? -/
def matchesFilter (flt : List (String × String)) (doc : Document) : Bool :=
  flt.all (fun kv => assocGet doc.metadata kv.1 == some kv.2)

/-- db.as_retriever(search_kwargs={"filter": flt}): the store ranks by vector
similarity (external, modelled by `rank`) among the chunks matching the
metadata filter. -/
def as_retriever (rank : VectorDb → List Document) (db : VectorDb)
    (flt : List (String × String)) : List Document :=
  rank (db.filter (matchesFilter flt))

end Db

/-! ## Chain builder: src/static/resources.py -/

namespace Resources

/-- The fixed text build_prompt appends to the supplied system prompt string
(markdown-formatting instructions plus the retrieved-context slot). -/
def default_suffix : String :=
  "\n\nYour task is to provide a clear, informative, and beautifully formatted markdown response for each topic provided." ++
  "\nInclude headings, bullet points, code blocks, and other markdown elements where appropriate." ++
  "\n\nContext:\n{context}"

/-- The assembled ChatPromptTemplate, identified by its system message (the
chat-history placeholder and the human "input" slot are fixed). -/
structure ChatPrompt where
  system : String
deriving DecidableEq

/-- build_prompt(system_prompt_str) calls system_prompt_str.strip(). main.py
passes the raw redis value, which is None when no template is stored; Python
then raises AttributeError. The st.cache_resource decorator memoizes results
per argument and does not change first-call behaviour. -/
def build_prompt : Option String → Except PyExc ChatPrompt
  | none => .error (.exc .attributeError "'NoneType' object has no attribute 'strip'")
  | some s => .ok ⟨pyStrip s ++ default_suffix⟩

/-- create_chains(system_prompt_str) = create_stuff_documents_chain(llm,
build_prompt(...)); the LLM binding is external, so the chain is represented
by its prompt. -/
def create_chains (system_prompt_str : Option String) : Except PyExc ChatPrompt :=
  build_prompt system_prompt_str

end Resources

/-! ## API layer: src/main.py -/

namespace Api

/-- One message of a ConversationBufferMemory. -/
inductive ChatMsg
  | user (content : String)
  | ai (content : String)
deriving DecidableEq, Repr

/-- A value stored in redis: a plain string (last_refresh, prompt_template)
or a pickled ConversationBufferMemory, identified by its message list. -/
inductive RVal
  | str (s : String)
  | mem (msgs : List ChatMsg)
deriving DecidableEq, Repr

abbrev Redis := List (String × RVal)

/-- The validated body of POST /create-bot (fields the endpoint reads). -/
structure CreateBotRequest where
  user_id : String
  bot_id : String
  kb_id : String
  csv : List String
  pdf : List String
  txt : List String
  json : List String
  web_url : List String
  prompt_template : Option String
  bot_name : String

/-- The validated body of POST /query. -/
structure QueryRequest where
  user_id : String
  bot_id : String
  kb_id : String
  session_id : String
  input_text : String

/-- Outcome of an endpoint call: the success payload, or the HTTPException
that FastAPI renders as an error response. -/
inductive ApiResponse
  | success (body : String)
  | httpError (statusCode : Nat) (detail : String)
deriving DecidableEq, Repr

/-- Per-request external effects of create_bot: the five loader calls (each
invoked with refresh=True) and the vector-store insertion; redisSetExc is
the exception redis_client.set raises, if any. -/
structure BotEnv where
  webLoad : String → Except PyExc (List Document)
  pdfLoad : String → Except PyExc (List Document)
  csvLoad : String → Except PyExc (List Document)
  txtLoad : String → Except PyExc (List Document)
  jsonLoad : String → Except PyExc (List Document)
  insertDb : List Document → Except PyExc Unit
  redisSetExc : Option PyExc

/-- documents.extend(loader(path, refresh=True)) over one source list; the
first exception aborts the loop and propagates. -/
def loadAll (loader : String → Except PyExc (List Document)) :
    List String → Except PyExc (List Document)
  | [] => .ok []
  | p :: ps =>
      match loader p with
      | .error e => .error e
      | .ok docs =>
          match loadAll loader ps with
          | .error e => .error e
          | .ok rest => .ok (docs ++ rest)

/-- The ingestion loop of create_bot: web URLs first, then pdf, csv, txt,
json (the zip order in main.py). -/
def collectDocs (env : BotEnv) (req : CreateBotRequest) : Except PyExc (List Document) :=
  match loadAll env.webLoad req.web_url with
  | .error e => .error e
  | .ok webDocs =>
  match loadAll env.pdfLoad req.pdf with
  | .error e => .error e
  | .ok pdfDocs =>
  match loadAll env.csvLoad req.csv with
  | .error e => .error e
  | .ok csvDocs =>
  match loadAll env.txtLoad req.txt with
  | .error e => .error e
  | .ok txtDocs =>
  match loadAll env.jsonLoad req.json with
  | .error e => .error e
  | .ok jsonDocs => .ok (webDocs ++ pdfDocs ++ csvDocs ++ txtDocs ++ jsonDocs)

/-- The body of the create-bot handler inside its try block. Note that the
HTTPException(400) raised for an empty document list is itself an Exception,
so it is caught by the handler's own `except Exception` clause. -/
def create_bot_body (env : BotEnv) (redis : Redis) (req : CreateBotRequest)
    (now : String) : Except PyExc (String × Redis) :=
  match collectDocs env req with
  | .error e => .error e
  | .ok documents =>
  if documents.isEmpty then
    .error (PyExc.httpException 400 "No valid documents provided")
  else
    match env.insertDb (Db.create_vectordb documents req.kb_id) with
    | .error e => .error e
    | .ok _ =>
    match env.redisSetExc with
    | some e => .error e
    | none =>
      let redis1 := assocSet redis
        ("last_refresh:" ++ req.user_id ++ ":" ++ req.bot_id ++ ":" ++ req.kb_id) (.str now)
      let redis2 :=
        match req.prompt_template with
        | some pt => assocSet redis1 ("prompt_template:" ++ req.user_id ++ ":" ++ req.bot_id) (.str pt)
        | none => redis1
      .ok (now, redis2)

/-- POST /create-bot. Any exception escaping the try block, the explicit
HTTPException(400) included, is re-raised as HTTPException(500, str(e)). -/
def create_bot (env : BotEnv) (redis : Redis) (req : CreateBotRequest)
    (now : String) : ApiResponse × Redis :=
  match create_bot_body env redis req now with
  | .ok (t, redis') => (.success t, redis')
  | .error e => (.httpError 500 e.str, redis)

/-- Per-request external effects of query_bot: loading the index, the vector
similarity ranking inside the store, and the retrieval-chain invocation
(which returns the response dict of the LLM call). -/
structure QueryEnv where
  load_vectordb : Except PyExc Db.VectorDb
  rank : Db.VectorDb → List Document
  invoke : Resources.ChatPrompt → List Document → String → List ChatMsg →
           Except PyExc (List (String × String))
  redisSetExc : Option PyExc

/-- The redis key under which this session's memory is stored. -/
def memoryKey (req : QueryRequest) : String :=
  "memory:" ++ req.user_id ++ ":" ++ req.bot_id ++ ":" ++ req.kb_id ++ ":" ++ req.session_id

/-- memory = pickle.loads(redis.get(memory_key)) if present, else a fresh
ConversationBufferMemory (empty message list). -/
def loadedMemory (redis : Redis) (req : QueryRequest) : List ChatMsg :=
  match assocGet redis (memoryKey req) with
  | some (.mem msgs) => msgs
  | _ => []

/-- prompt_template = redis.get(f-string key), decoded to str when present. -/
def storedPromptTemplate (redis : Redis) (req : QueryRequest) : Option String :=
  match assocGet redis ("prompt_template:" ++ req.user_id ++ ":" ++ req.bot_id) with
  | some (.str s) => some s
  | _ => none

/-- The body of the query handler inside its try block, step for step:
load the index, load or create the memory, append the user message
in process, load the optional prompt template, build the chain, retrieve
with the source_url filter, invoke, read response["answer"], append the
assistant message, and only then persist the memory to redis. -/
def query_bot_body (env : QueryEnv) (redis : Redis) (req : QueryRequest) :
    Except PyExc (String × Redis) :=
  match env.load_vectordb with
  | .error e => .error e
  | .ok db =>
  let memory1 := loadedMemory redis req ++ [ChatMsg.user req.input_text]
  match Resources.create_chains (storedPromptTemplate redis req) with
  | .error e => .error e
  | .ok base_chain =>
  let retrieved := Db.as_retriever env.rank db [("source_url", req.kb_id)]
  match env.invoke base_chain retrieved req.input_text memory1.dropLast with
  | .error e => .error e
  | .ok response =>
  match assocGet response "answer" with
  | none => .error (PyExc.exc .keyError "'answer'")
  | some answer =>
  let memory2 := memory1 ++ [ChatMsg.ai answer]
  match env.redisSetExc with
  | some e => .error e
  | none => .ok (answer, assocSet redis (memoryKey req) (.mem memory2))

/-- POST /query. Any exception is re-raised as HTTPException(500, str(e));
in that case the redis store is left as it was. -/
def query_bot (env : QueryEnv) (redis : Redis) (req : QueryRequest) :
    ApiResponse × Redis :=
  match query_bot_body env redis req with
  | .ok (answer, redis') => (.success answer, redis')
  | .error e => (.httpError 500 e.str, redis)

end Api

/-! ## Shared lemmas -/

theorem assocGet_assocSet_self [DecidableEq α] (m : List (α × β)) (k : α) (v : β) :
    assocGet (assocSet m k v) k = some v := by
  induction m with
  | nil => simp [assocSet, assocGet]
  | cons kv rest ih =>
      obtain ⟨k1, v1⟩ := kv
      by_cases h : k1 = k
      · subst h; simp [assocSet, assocGet]
      · simp [assocSet, assocGet, h, ih]

/-! ## Fixtures for witnesses and counterexamples -/

/-- An ingestion environment in which every loader succeeds with zero documents
and every downstream service succeeds. -/
def emptyBotEnv : Api.BotEnv where
  webLoad := fun _ => .ok []
  pdfLoad := fun _ => .ok []
  csvLoad := fun _ => .ok []
  txtLoad := fun _ => .ok []
  jsonLoad := fun _ => .ok []
  insertDb := fun _ => .ok ()
  redisSetExc := none

/-- A create-bot request whose one supplied source yields zero documents. -/
def reqNoDocs : Api.CreateBotRequest where
  user_id := "u1"
  bot_id := "b1"
  kb_id := "kb1"
  csv := []
  pdf := []
  txt := []
  json := ["data.json"]
  web_url := []
  prompt_template := none
  bot_name := "mybot"

/-! ## Claim C1 -/

/-- C1: a POST /create-bot request in which all supplied source lists yield
zero documents does NOT produce an HTTP 400. main.py raises
HTTPException(400, "No valid documents provided") inside the endpoint's try
block; fastapi.HTTPException subclasses Exception, so the blanket
`except Exception as e: raise HTTPException(500, str(e))` catches it and the
request is answered with HTTP 500 whose detail is str(HTTPException(400, ...))
= "400: No valid documents provided". In fact no execution of create_bot can
answer 400: every raise funnels through the 500 handler. -/
theorem c1_no_documents_returns_500_not_400 :
    Api.create_bot emptyBotEnv [] reqNoDocs "t0"
      = (.httpError 500 "400: No valid documents provided", [])
    ∧ ∀ (env : Api.BotEnv) (redis : Api.Redis) (req : Api.CreateBotRequest)
        (now detail : String),
        (Api.create_bot env redis req now).1 ≠ Api.ApiResponse.httpError 400 detail := by
  constructor
  · rfl
  · intro env redis req now detail
    unfold Api.create_bot
    cases Api.create_bot_body env redis req now with
    | ok p => simp
    | error e => simp

/-! ## Claim C2 -/

/-- C2: any exception raised during ingestion (the loader loop), vector-store
insertion, or chain invocation is caught at the endpoint boundary and
surfaced as HTTP 500 whose detail is str(e); the endpoints are total on the
modelled effects, so nothing propagates past them. -/
theorem c2_failures_surface_as_500_with_message :
    (∀ (env : Api.BotEnv) (redis : Api.Redis) (req : Api.CreateBotRequest) (now : String)
       (e : PyExc), Api.collectDocs env req = .error e →
       Api.create_bot env redis req now = (.httpError 500 e.str, redis))
  ∧ (∀ (env : Api.BotEnv) (redis : Api.Redis) (req : Api.CreateBotRequest) (now : String)
       (docs : List Document) (e : PyExc),
       Api.collectDocs env req = .ok docs → docs ≠ [] →
       env.insertDb (Db.create_vectordb docs req.kb_id) = .error e →
       Api.create_bot env redis req now = (.httpError 500 e.str, redis))
  ∧ (∀ (env : Api.QueryEnv) (redis : Api.Redis) (req : Api.QueryRequest)
       (db : Db.VectorDb) (bc : Resources.ChatPrompt) (e : PyExc),
       env.load_vectordb = .ok db →
       Resources.create_chains (Api.storedPromptTemplate redis req) = .ok bc →
       env.invoke bc (Db.as_retriever env.rank db [("source_url", req.kb_id)])
         req.input_text (Api.loadedMemory redis req ++ [Api.ChatMsg.user req.input_text]).dropLast
         = .error e →
       Api.query_bot env redis req = (.httpError 500 e.str, redis)) := by
  refine ⟨?_, ?_, ?_⟩
  · intro env redis req now e h
    simp [Api.create_bot, Api.create_bot_body, h]
  · intro env redis req now docs e hdocs hne hins
    cases docs with
    | nil => exact absurd rfl hne
    | cons d ds =>
        simp [Api.create_bot, Api.create_bot_body, hdocs, hins, List.isEmpty]
  · intro env redis req db bc e hdb hbc hinv
    simp only [List.dropLast_concat] at hinv
    simp [Api.query_bot, Api.query_bot_body, hdb, hbc, hinv]

/-- An ingestion environment whose web loader raises. -/
def webFailBotEnv : Api.BotEnv where
  webLoad := fun _ => .error (.exc .connectionError "connection refused")
  pdfLoad := fun _ => .ok []
  csvLoad := fun _ => .ok []
  txtLoad := fun _ => .ok []
  jsonLoad := fun _ => .ok []
  insertDb := fun _ => .ok ()
  redisSetExc := none

/-- A create-bot request supplying one web URL. -/
def reqWebOnly : Api.CreateBotRequest where
  user_id := "u1"
  bot_id := "b1"
  kb_id := "kb1"
  csv := []
  pdf := []
  txt := []
  json := []
  web_url := ["http://example.com/"]
  prompt_template := none
  bot_name := "mybot"

/-- A query request fixture. -/
def qreq1 : Api.QueryRequest where
  user_id := "u1"
  bot_id := "b1"
  kb_id := "kb1"
  session_id := "s1"
  input_text := "hello"

/-- A redis store holding a prompt template for (u1, b1). -/
def redisPT : Api.Redis := [("prompt_template:u1:b1", .str "You are a helpful assistant.")]

/-- A query environment whose chain invocation raises. -/
def qEnvInvokeFail : Api.QueryEnv where
  load_vectordb := .ok []
  rank := fun l => l
  invoke := fun _ _ _ _ => .error (.exc .valueError "llm unavailable")
  redisSetExc := none

/-- Witness for C2 at concrete inputs: a loader failure in create_bot and an
LLM failure in query_bot each surface as 500 with the exception text. -/
theorem c2_failures_surface_as_500_with_message_witness :
    Api.create_bot webFailBotEnv [] reqWebOnly "t0"
      = (.httpError 500 "connection refused", [])
    ∧ Api.query_bot qEnvInvokeFail redisPT qreq1
      = (.httpError 500 "llm unavailable", redisPT) :=
  ⟨c2_failures_surface_as_500_with_message.1 webFailBotEnv [] reqWebOnly "t0"
     (.exc .connectionError "connection refused") rfl,
   c2_failures_surface_as_500_with_message.2.2 qEnvInvokeFail redisPT qreq1 []
     ⟨pyStrip "You are a helpful assistant." ++ Resources.default_suffix⟩
     (.exc .valueError "llm unavailable") rfl rfl rfl⟩

/-! ## Claim C3 -/

/-- A fully healthy query environment: identity ranking and an LLM answering
"ANSWER". -/
def qEnvHappy : Api.QueryEnv where
  load_vectordb := .ok [Document.mk "chunk" [("source_url", "kb1")]]
  rank := fun l => l
  invoke := fun _ _ _ _ => .ok [("answer", "ANSWER")]
  redisSetExc := none

/-- C3: the stored override is indeed substituted into the system prompt
(stripped, then the fixed markdown/context suffix is appended). But the
override is not optional in practice: when none is stored, redis.get returns
None, main.py passes None to create_chains, and build_prompt calls
None.strip(), raising AttributeError — the query is answered 500 instead of
succeeding with a default prompt. -/
theorem c3_prompt_override_required_not_optional :
    (∀ (s : String), Resources.create_chains (some s)
        = .ok ⟨pyStrip s ++ Resources.default_suffix⟩)
  ∧ (∀ (env : Api.QueryEnv) (redis : Api.Redis) (req : Api.QueryRequest) (db : Db.VectorDb),
      env.load_vectordb = .ok db →
      Api.storedPromptTemplate redis req = none →
      Api.query_bot env redis req
        = (.httpError 500 "'NoneType' object has no attribute 'strip'", redis)) := by
  constructor
  · intro s; rfl
  · intro env redis req db hdb hpt
    simp [Api.query_bot, Api.query_bot_body, hdb, hpt,
          Resources.create_chains, Resources.build_prompt, PyExc.str]

/-- Witness for C3: with an empty redis store (no override saved) and every
external service healthy, the query crashes with the NoneType message. -/
theorem c3_prompt_override_required_not_optional_witness :
    Resources.create_chains (some "You are a bot.")
      = .ok ⟨pyStrip "You are a bot." ++ Resources.default_suffix⟩
    ∧ Api.query_bot qEnvHappy [] qreq1
      = (.httpError 500 "'NoneType' object has no attribute 'strip'", []) :=
  ⟨c3_prompt_override_required_not_optional.1 "You are a bot.",
   c3_prompt_override_required_not_optional.2 qEnvHappy [] qreq1
     [Document.mk "chunk" [("source_url", "kb1")]] rfl rfl⟩

/-! ## Claim C9 -/

/-- C9: create_vectordb stamps source_url := kb_id on every inserted chunk,
overwriting any loader-assigned value; and query_bot retrieves through a
retriever filtered on source_url = kb_id, so — under the vector store's
documented contract that ranking only selects among the chunks matching the
filter — every retrieved chunk carries source_url = kb_id. -/
theorem c9_kb_is_metadata_partition :
    (∀ (docs : List Document) (kb : String) (d : Document),
      d ∈ Db.create_vectordb docs kb → assocGet d.metadata "source_url" = some kb)
  ∧ (∀ (rank : Db.VectorDb → List Document) (db : Db.VectorDb) (kb : String),
      (∀ (l : List Document) (d : Document), d ∈ rank l → d ∈ l) →
      ∀ (d : Document), d ∈ Db.as_retriever rank db [("source_url", kb)] →
        assocGet d.metadata "source_url" = some kb) := by
  constructor
  · intro docs kb d hd
    simp [Db.create_vectordb] at hd
    obtain ⟨a, _, rfl⟩ := hd
    exact assocGet_assocSet_self ..
  · intro rank db kb hrank d hd
    have hmem := hrank _ _ hd
    rw [List.mem_filter] at hmem
    have hflt := hmem.2
    simpa [Db.matchesFilter] using hflt

/-- Witness for C9: a chunk with a loader-assigned source_url gets it
overwritten to the kb id, and a filtered retrieval only yields kb1 chunks. -/
theorem c9_kb_is_metadata_partition_witness :
    assocGet (Document.mk "alpha" [("source_url", "kb1")]).metadata "source_url" = some "kb1"
    ∧ assocGet (Document.mk "beta" [("source", "b.pdf"), ("source_url", "kb1")]).metadata
        "source_url" = some "kb1"
    ∧ assocGet (Document.mk "gamma" [("source_url", "kb1")]).metadata "source_url" = some "kb1" :=
  ⟨c9_kb_is_metadata_partition.1
     [Document.mk "alpha" [("source_url", "http://example.com/")]] "kb1"
     (Document.mk "alpha" [("source_url", "kb1")]) (by decide),
   c9_kb_is_metadata_partition.1
     [Document.mk "beta" [("source", "b.pdf")]] "kb1"
     (Document.mk "beta" [("source", "b.pdf"), ("source_url", "kb1")]) (by decide),
   c9_kb_is_metadata_partition.2 (fun l => l)
     [Document.mk "gamma" [("source_url", "kb1")],
      Document.mk "delta" [("source_url", "other")]] "kb1"
     (fun _ _ h => h)
     (Document.mk "gamma" [("source_url", "kb1")]) (by decide)⟩

/-! ## Claim C10 -/

/-- On the success path, query_bot_body persists exactly the loaded memory
plus the user message plus the assistant answer under the memory key. -/
theorem query_bot_body_ok_shape (env : Api.QueryEnv) (redis : Api.Redis)
    (req : Api.QueryRequest) (a : String) (r' : Api.Redis)
    (h : Api.query_bot_body env redis req = .ok (a, r')) :
    r' = assocSet redis (Api.memoryKey req)
      (.mem (Api.loadedMemory redis req
        ++ [Api.ChatMsg.user req.input_text, Api.ChatMsg.ai a])) := by
  simp only [Api.query_bot_body] at h
  cases hdb : env.load_vectordb with
  | error e => rw [hdb] at h; exact absurd h (by simp)
  | ok db =>
    rw [hdb] at h
    simp only [] at h
    cases hbc : Resources.create_chains (Api.storedPromptTemplate redis req) with
    | error e => rw [hbc] at h; exact absurd h (by simp)
    | ok bc =>
      rw [hbc] at h
      simp only [] at h
      cases hinv : env.invoke bc (Db.as_retriever env.rank db [("source_url", req.kb_id)])
          req.input_text ((Api.loadedMemory redis req ++ [Api.ChatMsg.user req.input_text]).dropLast) with
      | error e => rw [hinv] at h; exact absurd h (by simp)
      | ok response =>
        rw [hinv] at h
        simp only [] at h
        cases hans : assocGet response "answer" with
        | none => rw [hans] at h; exact absurd h (by simp)
        | some answer =>
          rw [hans] at h
          simp only [] at h
          cases hset : env.redisSetExc with
          | some e => rw [hset] at h; exact absurd h (by simp)
          | none =>
            rw [hset] at h
            simp at h
            obtain ⟨h1, h2⟩ := h
            subst h1
            rw [← h2]

/-- C10: the conversation memory in redis is written only after the chain
invocation (and answer extraction) succeed. If any step of the query body
fails, the whole redis store — in particular the memory key — is returned
unchanged; on success the stored memory is the loaded messages plus the new
user message plus the assistant answer. -/
theorem c10_memory_persisted_only_after_success :
    (∀ (env : Api.QueryEnv) (redis : Api.Redis) (req : Api.QueryRequest) (e : PyExc),
      Api.query_bot_body env redis req = .error e →
      (Api.query_bot env redis req).2 = redis)
  ∧ (∀ (env : Api.QueryEnv) (redis : Api.Redis) (req : Api.QueryRequest)
       (ans : String) (redis' : Api.Redis),
      Api.query_bot env redis req = (.success ans, redis') →
      redis' = assocSet redis (Api.memoryKey req)
        (.mem (Api.loadedMemory redis req
          ++ [Api.ChatMsg.user req.input_text, Api.ChatMsg.ai ans]))) := by
  constructor
  · intro env redis req e h
    simp [Api.query_bot, h]
  · intro env redis req ans redis' h
    unfold Api.query_bot at h
    cases hb : Api.query_bot_body env redis req with
    | error e => rw [hb] at h; simp at h
    | ok p =>
        obtain ⟨a, r''⟩ := p
        rw [hb] at h
        simp at h
        obtain ⟨ha, hr⟩ := h
        subst ha; subst hr
        exact query_bot_body_ok_shape env redis req a r'' hb

/-- Witness for C10: a failing invocation leaves the store untouched; the
happy path stores exactly loaded memory + user message + answer. -/
theorem c10_memory_persisted_only_after_success_witness :
    (Api.query_bot qEnvInvokeFail redisPT qreq1).2 = redisPT
    ∧ (Api.query_bot qEnvHappy redisPT qreq1).2
        = assocSet redisPT (Api.memoryKey qreq1)
            (.mem (Api.loadedMemory redisPT qreq1
              ++ [Api.ChatMsg.user qreq1.input_text, Api.ChatMsg.ai "ANSWER"])) :=
  ⟨c10_memory_persisted_only_after_success.1 qEnvInvokeFail redisPT qreq1
     (.exc .valueError "llm unavailable") rfl,
   c10_memory_persisted_only_after_success.2 qEnvHappy redisPT qreq1 "ANSWER"
     (Api.query_bot qEnvHappy redisPT qreq1).2 rfl⟩

/-! ## Claim C5 -/

/-- A web environment serving fixed content "PAGE A". -/
def webEnvA : Web.Env where
  fetch := fun _ => .ok "<p>PAGE A</p>"
  extract := fun h => h
  split := fun _ _ t => [t]
  writeOk := true

/-- A web environment serving different content "PAGE B". -/
def webEnvB : Web.Env where
  fetch := fun _ => .ok "<p>PAGE B</p>"
  extract := fun h => h
  split := fun _ _ t => [t]
  writeOk := true

/-- C5: refresh=True does skip the on-disk cache lookup in every loader. But
load_and_process_documents is wrapped in functools.lru_cache, which memoizes
on the full argument tuple (refresh included): once a call with refresh=True
succeeded, any repeated call with identical arguments in the same process
returns the memoized chunks without fetching or reprocessing the source —
contradicting the docstring "refresh: Force refresh of cached document" and
defeating the refresh=True that create_bot passes on re-ingestion. -/
theorem c5_refresh_skips_disk_cache_but_lru_memoizes :
    (∀ (env : Web.Env) (cache : Cache) (url : String) (cs co : Nat),
      Web.loadInner env cache url cs co true = Web.loadBody env cache url cs co)
  ∧ (∀ (env : Pdf.Env) (cache : Cache) (source : String) (cs co : Nat) (il : Bool),
      Pdf.load_and_process_pdf env cache source cs co true il
        = Pdf.loadBody env cache source cs co il)
  ∧ (∀ (env : Csv.Env) (cache : Cache) (p d : String) (cs co : Nat),
      Csv.load_and_process_csv env cache p d cs co true
        = Csv.loadBody env cache p d cs co)
  ∧ (∀ (env : Txt.Env) (cache : Cache) (p : String) (cs co : Nat),
      Txt.load_and_process_txt env cache p cs co true
        = Txt.loadBody env cache (pathStr p) cs co)
  ∧ (∀ (env : Jsonl.Env) (cache : Cache) (p : String) (cs co : Nat),
      Jsonl.load_and_process_json env cache p cs co true
        = Jsonl.loadBody env cache (pathStr p) cs co)
  ∧ (∀ (env1 env2 : Web.Env) (lru : Web.LruMap) (cache : Cache) (url : String)
       (cs co : Nat) (docs : List Document) (lru1 : Web.LruMap) (cache1 : Cache)
       (fetched : Bool),
      Web.load_and_process_documents env1 lru cache url cs co true
        = (.ok docs, lru1, cache1, fetched) →
      Web.load_and_process_documents env2 lru1 cache1 url cs co true
        = (.ok docs, lru1, cache1, false)) := by
  refine ⟨fun _ _ _ _ _ => rfl, fun _ _ _ _ _ _ => rfl, fun _ _ _ _ _ _ => rfl,
          fun _ _ _ _ _ => rfl, fun _ _ _ _ _ => rfl, ?_⟩
  intro env1 env2 lru cache url cs co docs lru1 cache1 fetched h
  unfold Web.load_and_process_documents at h ⊢
  cases hl : assocGet lru (url, cs, co, true) with
  | some d0 =>
      rw [hl] at h
      simp at h
      obtain ⟨h1, h2, h3, _⟩ := h
      subst h1; subst h2; subst h3
      rw [hl]
  | none =>
      rw [hl] at h
      rcases hres : Web.loadInner env1 cache url cs co true with ⟨res, cache', fetched'⟩
      rw [hres] at h
      cases res with
      | error e => simp at h
      | ok d1 =>
          simp at h
          obtain ⟨h1, h2, h3, _⟩ := h
          subst h1; subst h2; subst h3
          rw [assocGet_assocSet_self]

/-- Witness for C5: after a refresh=True call on PAGE A, a second refresh=True
call — even though the page now serves PAGE B — returns the memoized PAGE A
chunks with no fetch (final component false). -/
theorem c5_refresh_skips_disk_cache_but_lru_memoizes_witness :
    Web.load_and_process_documents webEnvB
      [(("http://example.com/", 1000, 200, true),
        [Document.mk "<p>PAGE A</p>" [("source_url", "http://example.com/")]])]
      [(md5Hex "http://example.com/",
        .good [Document.mk "<p>PAGE A</p>" [("source_url", "http://example.com/")]])]
      "http://example.com/" 1000 200 true
    = (.ok [Document.mk "<p>PAGE A</p>" [("source_url", "http://example.com/")]],
       [(("http://example.com/", 1000, 200, true),
         [Document.mk "<p>PAGE A</p>" [("source_url", "http://example.com/")]])],
       [(md5Hex "http://example.com/",
         .good [Document.mk "<p>PAGE A</p>" [("source_url", "http://example.com/")]])],
       false) :=
  c5_refresh_skips_disk_cache_but_lru_memoizes.2.2.2.2.2 webEnvA webEnvB [] []
    "http://example.com/" 1000 200
    [Document.mk "<p>PAGE A</p>" [("source_url", "http://example.com/")]]
    [(("http://example.com/", 1000, 200, true),
      [Document.mk "<p>PAGE A</p>" [("source_url", "http://example.com/")]])]
    [(md5Hex "http://example.com/",
      .good [Document.mk "<p>PAGE A</p>" [("source_url", "http://example.com/")]])]
    true rfl

/-! ## Claim C4 -/

/-- A healthy PDF environment. -/
def pdfEnvHappy : Pdf.Env where
  download := fun _ => some [37, 80, 68, 70]
  readLocal := fun _ => some [37, 80, 68, 70]
  extract := fun _ => "pdf text content"
  split := fun _ _ t => [t]
  writeOk := true

/-- Counterexample to C4 as stated: not every deserialization failure falls
through to reprocessing. The web and PDF loaders catch only
pickle.PickleError and EOFError on cache read; an AttributeError raised by
pickle.load (a failure mode documented for pickle, e.g. a missing class)
propagates out of load_and_process_pdf instead of reprocessing. -/
theorem c4_counterexample_pdf_cache_attribute_error_raises :
    (Pdf.load_and_process_pdf pdfEnvHappy
        [(md5Hex "doc.pdf", .corrupt (.exc .attributeError "Cannot get attribute Document"))]
        "doc.pdf" 1000 200 false false).1
      = .error (.exc .attributeError "Cannot get attribute Document") := by
  rfl

/-- C4 amended: if a cache entry exists and refresh is not forced, it is
deserialized and returned; on a deserialization failure the loader falls
through to reprocessing when the failure is a pickle or EOF error (web and
PDF loaders) or any exception at all (CSV loader); any other cache-read
exception in the web and PDF loaders propagates to the caller. -/
theorem c4_cache_lookup_amended :
    (∀ (env : Web.Env) (cache : Cache) (url : String) (cs co : Nat) (docs : List Document),
      assocGet cache (Web.create_cache_key url) = some (.good docs) →
      Web.loadInner env cache url cs co false = (.ok docs, cache, false))
  ∧ (∀ (env : Pdf.Env) (cache : Cache) (s : String) (cs co : Nat) (il : Bool)
       (docs : List Document),
      assocGet cache (Pdf.create_cache_key s) = some (.good docs) →
      Pdf.load_and_process_pdf env cache s cs co false il = (.ok docs, cache))
  ∧ (∀ (env : Csv.Env) (cache : Cache) (p d : String) (cs co : Nat) (docs : List Document),
      assocGet cache (Csv.create_cache_key p d) = some (.good docs) →
      Csv.load_and_process_csv env cache p d cs co false = (docs, cache))
  ∧ (∀ (env : Web.Env) (cache : Cache) (url : String) (cs co : Nat) (e : PyExc),
      assocGet cache (Web.create_cache_key url) = some (.corrupt e) →
      e.caughtByPickleEOF = true →
      Web.loadInner env cache url cs co false = Web.loadBody env cache url cs co)
  ∧ (∀ (env : Pdf.Env) (cache : Cache) (s : String) (cs co : Nat) (il : Bool) (e : PyExc),
      assocGet cache (Pdf.create_cache_key s) = some (.corrupt e) →
      e.caughtByPickleEOF = true →
      Pdf.load_and_process_pdf env cache s cs co false il = Pdf.loadBody env cache s cs co il)
  ∧ (∀ (env : Csv.Env) (cache : Cache) (p d : String) (cs co : Nat) (e : PyExc),
      assocGet cache (Csv.create_cache_key p d) = some (.corrupt e) →
      Csv.load_and_process_csv env cache p d cs co false = Csv.loadBody env cache p d cs co)
  ∧ (∀ (env : Pdf.Env) (cache : Cache) (s : String) (cs co : Nat) (il : Bool) (e : PyExc),
      assocGet cache (Pdf.create_cache_key s) = some (.corrupt e) →
      e.caughtByPickleEOF = false →
      Pdf.load_and_process_pdf env cache s cs co false il = (.error e, cache)) := by
  refine ⟨?_, ?_, ?_, ?_, ?_, ?_, ?_⟩
  · intro env cache url cs co docs hc
    unfold Web.loadInner
    rw [hc]
    rfl
  · intro env cache s cs co il docs hc
    unfold Pdf.load_and_process_pdf
    rw [hc]
    rfl
  · intro env cache p d cs co docs hc
    unfold Csv.load_and_process_csv
    rw [hc]
    rfl
  · intro env cache url cs co e hc he
    unfold Web.loadInner
    rw [hc]
    simp [he]
  · intro env cache s cs co il e hc he
    unfold Pdf.load_and_process_pdf
    rw [hc]
    simp [he]
  · intro env cache p d cs co e hc
    unfold Csv.load_and_process_csv
    rw [hc]
    rfl
  · intro env cache s cs co il e hc he
    unfold Pdf.load_and_process_pdf
    rw [hc]
    simp [he]

/-- Witness for C4 (amended) at concrete inputs: a good hit is returned for
the web, PDF and CSV loaders; a pickle-error hit falls through for the web
and PDF loaders; any corrupt hit falls through for the CSV loader; a
non-pickle corrupt hit propagates for the PDF loader. -/
theorem c4_cache_lookup_amended_witness :
    Web.loadInner webEnvA
        [(Web.create_cache_key "http://example.com/",
          .good [Document.mk "w" [("source_url", "http://example.com/")]])]
        "http://example.com/" 1000 200 false
      = (.ok [Document.mk "w" [("source_url", "http://example.com/")]],
         [(Web.create_cache_key "http://example.com/",
           .good [Document.mk "w" [("source_url", "http://example.com/")]])], false)
    ∧ Pdf.load_and_process_pdf pdfEnvHappy
        [(Pdf.create_cache_key "doc.pdf", .good [Document.mk "p" [("source", "doc.pdf")]])]
        "doc.pdf" 1000 200 false false
      = (.ok [Document.mk "p" [("source", "doc.pdf")]],
         [(Pdf.create_cache_key "doc.pdf", .good [Document.mk "p" [("source", "doc.pdf")]])])
    ∧ Pdf.load_and_process_pdf pdfEnvHappy
        [(Pdf.create_cache_key "doc.pdf", .corrupt (.exc .pickleError "bad pickle"))]
        "doc.pdf" 1000 200 false false
      = Pdf.loadBody pdfEnvHappy
          [(Pdf.create_cache_key "doc.pdf", .corrupt (.exc .pickleError "bad pickle"))]
          "doc.pdf" 1000 200 false
    ∧ Pdf.load_and_process_pdf pdfEnvHappy
        [(Pdf.create_cache_key "doc.pdf", .corrupt (.exc .keyError "boom"))]
        "doc.pdf" 1000 200 false false
      = (.error (.exc .keyError "boom"),
         [(Pdf.create_cache_key "doc.pdf", .corrupt (.exc .keyError "boom"))]) :=
  ⟨c4_cache_lookup_amended.1 webEnvA _ "http://example.com/" 1000 200
     [Document.mk "w" [("source_url", "http://example.com/")]] (by decide),
   c4_cache_lookup_amended.2.1 pdfEnvHappy _ "doc.pdf" 1000 200 false
     [Document.mk "p" [("source", "doc.pdf")]] (by decide),
   c4_cache_lookup_amended.2.2.2.2.1 pdfEnvHappy _ "doc.pdf" 1000 200 false
     (.exc .pickleError "bad pickle") (by decide) (by decide),
   c4_cache_lookup_amended.2.2.2.2.2.2 pdfEnvHappy _ "doc.pdf" 1000 200 false
     (.exc .keyError "boom") (by decide) (by decide)⟩

/-! ## Claim C6 -/

/-- Counterexample to C6 as stated: not every loader-level failure degrades to
an empty result. A cache-read failure that is not a pickle or EOF error —
here an OSError opening the cache file of the web loader — propagates out of
load_and_process_documents instead of being logged and degraded. -/
theorem c6_counterexample_web_cache_oserror_raises :
    (Web.load_and_process_documents webEnvA []
        [(md5Hex "http://example.com/", .corrupt (.exc .osError "Permission denied"))]
        "http://example.com/" 1000 200 false).1
      = .error (.exc .osError "Permission denied") := by
  rfl

/-- C6 amended: download failures, source read/parse failures and
reprocessing failures are logged and yield an empty list; a cache-write
failure is logged and the freshly processed chunks are still returned with
the cache unchanged; cache-read failures fall through to reprocessing when
they are pickle or EOF errors (web, PDF) or any exception (CSV, TXT, JSON);
any other cache-read failure in the web and PDF loaders propagates. -/
theorem c6_loader_failures_degrade_amended :
    (∀ (env : Web.Env) (cache : Cache) (url : String) (cs co : Nat) (e : PyExc),
      env.fetch url = .error e →
      Web.loadBody env cache url cs co = (.ok [], cache, true))
  ∧ (∀ (env : Pdf.Env) (cache : Cache) (s : String) (cs co : Nat),
      env.download s = none →
      Pdf.loadBody env cache s cs co false = (.ok [], cache))
  ∧ (∀ (env : Txt.Env) (cache : Cache) (p : String) (cs co : Nat) (e : PyExc),
      env.read p = .error e →
      Txt.loadBody env cache p cs co = ([], cache))
  ∧ (∀ (env : Csv.Env) (cache : Cache) (p d : String) (cs co : Nat) (e : PyExc),
      env.readRows p d = .error e →
      Csv.loadBody env cache p d cs co = ([], cache))
  ∧ (∀ (env : Web.Env) (cache : Cache) (url : String) (cs co : Nat)
       (html : String) (chunks : List String),
      env.writeOk = false →
      env.fetch url = .ok html → html ≠ "" →
      env.split cs co (env.extract html) = chunks → chunks ≠ [] →
      Web.loadBody env cache url cs co
        = (.ok (chunks.map (fun c => Document.mk c [("source_url", url)])), cache, true))
  ∧ (∀ (env : Txt.Env) (cache : Cache) (p : String) (cs co : Nat) (e : PyExc),
      assocGet cache (Txt.create_cache_key (pathStr p)) = some (.corrupt e) →
      Txt.load_and_process_txt env cache p cs co false
        = Txt.loadBody env cache (pathStr p) cs co)
  ∧ (∀ (env : Web.Env) (cache : Cache) (url : String) (cs co : Nat) (e : PyExc),
      assocGet cache (Web.create_cache_key url) = some (.corrupt e) →
      e.caughtByPickleEOF = false →
      Web.loadInner env cache url cs co false = (.error e, cache, false)) := by
  refine ⟨?_, ?_, ?_, ?_, ?_, ?_, ?_⟩
  · intro env cache url cs co e hf
    unfold Web.loadBody
    rw [hf]
  · intro env cache s cs co hd
    unfold Pdf.loadBody
    rw [if_neg (by simp), hd]
  · intro env cache p cs co e hr
    unfold Txt.loadBody
    rw [hr]
  · intro env cache p d cs co e hr
    unfold Csv.loadBody
    rw [hr]
  · intro env cache url cs co html chunks hw hf hh hsp hch
    unfold Web.loadBody
    rw [hf]
    simp [hh, hsp, hch, hw, List.isEmpty_iff]
  · intro env cache p cs co e hc
    simp only [Txt.load_and_process_txt]
    rw [hc]
    rfl
  · intro env cache url cs co e hc he
    unfold Web.loadInner
    rw [hc]
    simp [he]

/-- A web environment whose selenium fetch raises. -/
def webEnvFetchFail : Web.Env where
  fetch := fun _ => .error (.exc .connectionError "selenium timeout")
  extract := fun h => h
  split := fun _ _ t => [t]
  writeOk := true

/-- A PDF environment whose download helper returned None. -/
def pdfEnvDownloadFail : Pdf.Env where
  download := fun _ => none
  readLocal := fun _ => none
  extract := fun _ => ""
  split := fun _ _ t => [t]
  writeOk := true

/-- A text environment whose file read raises. -/
def txtEnvReadFail : Txt.Env where
  read := fun _ => .error (.exc .osError "No such file or directory")
  split := fun _ _ t => [t]
  writeOk := true

/-- A CSV environment whose row read raises. -/
def csvEnvReadFail : Csv.Env where
  readRows := fun _ _ => .error (.exc .osError "No such file or directory")
  split := fun _ _ t => [t]
  writeOk := true

/-- A healthy web environment whose cache write fails. -/
def webEnvNoWrite : Web.Env where
  fetch := fun _ => .ok "<p>X</p>"
  extract := fun h => h
  split := fun _ _ t => [t]
  writeOk := false

/-- A healthy text environment. -/
def txtEnvHappy : Txt.Env where
  read := fun _ => .ok "text from disk"
  split := fun _ _ t => [t]
  writeOk := true

/-- Witness for C6 (amended) at concrete inputs. -/
theorem c6_loader_failures_degrade_amended_witness :
    Web.loadBody webEnvFetchFail [] "http://example.com/" 1000 200 = (.ok [], [], true)
    ∧ Pdf.loadBody pdfEnvDownloadFail [] "http://host/x.pdf" 1000 200 false = (.ok [], [])
    ∧ Txt.loadBody txtEnvReadFail [] "notes.txt" 1000 200 = ([], [])
    ∧ Csv.loadBody csvEnvReadFail [] "data.csv" "," 1000 200 = ([], [])
    ∧ Web.loadBody webEnvNoWrite [("stale", .good [])] "http://example.com/" 1000 200
        = (.ok [Document.mk "<p>X</p>" [("source_url", "http://example.com/")]],
           [("stale", .good [])], true)
    ∧ Txt.load_and_process_txt txtEnvHappy
        [(md5Hex "notes.txt", .corrupt (.exc .valueError "corrupt entry"))]
        "notes.txt" 1000 200 false
      = Txt.loadBody txtEnvHappy
          [(md5Hex "notes.txt", .corrupt (.exc .valueError "corrupt entry"))]
          "notes.txt" 1000 200 :=
  ⟨c6_loader_failures_degrade_amended.1 webEnvFetchFail [] "http://example.com/" 1000 200
     (.exc .connectionError "selenium timeout") rfl,
   c6_loader_failures_degrade_amended.2.1 pdfEnvDownloadFail [] "http://host/x.pdf" 1000 200 rfl,
   c6_loader_failures_degrade_amended.2.2.1 txtEnvReadFail [] "notes.txt" 1000 200
     (.exc .osError "No such file or directory") rfl,
   c6_loader_failures_degrade_amended.2.2.2.1 csvEnvReadFail [] "data.csv" "," 1000 200
     (.exc .osError "No such file or directory") rfl,
   c6_loader_failures_degrade_amended.2.2.2.2.1 webEnvNoWrite [("stale", .good [])]
     "http://example.com/" 1000 200 "<p>X</p>" ["<p>X</p>"] rfl rfl (by decide) rfl (by decide),
   c6_loader_failures_degrade_amended.2.2.2.2.2.1 txtEnvHappy
     [(md5Hex "notes.txt", .corrupt (.exc .valueError "corrupt entry"))]
     "notes.txt" 1000 200 (.exc .valueError "corrupt entry") (by decide)⟩

/-! ## Claim C7 -/

/-- Evaluation of the text-loader body when the read and the cache write
succeed: the split chunks are returned and written to the cache. -/
theorem txt_loadBody_ok (env : Txt.Env) (cache : Cache) (path : String)
    (cs co : Nat) (text : String)
    (hread : env.read path = .ok text) (hw : env.writeOk = true) :
    Txt.loadBody env cache path cs co
      = ((env.split cs co text).map (fun c => Document.mk c [("source_file", path)]),
         assocSet cache (Txt.create_cache_key path)
           (.good ((env.split cs co text).map (fun c => Document.mk c [("source_file", path)])))) := by
  unfold Txt.loadBody
  rw [hread, hw]
  rfl

/-- Evaluation of the JSON-loader body when the read and the cache write
succeed. -/
theorem json_loadBody_ok (env : Jsonl.Env) (cache : Cache) (path : String)
    (cs co : Nat) (rows : List String)
    (hread : env.read path = .ok rows) (hw : env.writeOk = true) :
    Jsonl.loadBody env cache path cs co
      = ((env.split cs co (String.intercalate "\n" rows)).map
           (fun c => Document.mk c [("source_file", path)]),
         assocSet cache (Jsonl.create_cache_key path)
           (.good ((env.split cs co (String.intercalate "\n" rows)).map
             (fun c => Document.mk c [("source_file", path)])))) := by
  unfold Jsonl.loadBody
  rw [hread, hw]
  rfl

/-- C7: for the text and JSON loaders, a second invocation with the identical
source and identical parameters returns exactly the first invocation's chunk
list and leaves the cache unchanged, as long as refresh is not forced on the
second call — even if the underlying file changed in between (second call
runs in an arbitrary environment env2), because it is served from the cache.
Hypotheses: the first call's file read and cache write succeed. -/
theorem c7_identical_source_identical_cached_output :
    (∀ (env1 env2 : Txt.Env) (cache : Cache) (p : String) (cs co : Nat) (r1 : Bool)
       (text : String),
      env1.read (pathStr p) = .ok text → env1.writeOk = true →
      Txt.load_and_process_txt env2 (Txt.load_and_process_txt env1 cache p cs co r1).2
          p cs co false
        = Txt.load_and_process_txt env1 cache p cs co r1)
  ∧ (∀ (env1 env2 : Jsonl.Env) (cache : Cache) (p : String) (cs co : Nat) (r1 : Bool)
       (rows : List String),
      env1.read (pathStr p) = .ok rows → env1.writeOk = true →
      Jsonl.load_and_process_json env2 (Jsonl.load_and_process_json env1 cache p cs co r1).2
          p cs co false
        = Jsonl.load_and_process_json env1 cache p cs co r1) := by
  constructor
  · intro env1 env2 cache p cs co r1 text hread hw
    simp only [Txt.load_and_process_txt]
    rcases hr1 : (if r1 = true then none
        else assocGet cache (Txt.create_cache_key (pathStr p))) with _ | entry
    · simp only []
      rw [txt_loadBody_ok env1 cache (pathStr p) cs co text hread hw]
      simp only []
      rw [assocGet_assocSet_self]
      rfl
    · cases entry with
      | good d =>
          have hr1' : assocGet cache (Txt.create_cache_key (pathStr p)) = some (.good d) := by
            cases r1 <;> simp_all
          simp only []
          rw [hr1']
          rfl
      | corrupt e =>
          simp only []
          rw [txt_loadBody_ok env1 cache (pathStr p) cs co text hread hw]
          simp only []
          rw [assocGet_assocSet_self]
          rfl
  · intro env1 env2 cache p cs co r1 rows hread hw
    simp only [Jsonl.load_and_process_json]
    rcases hr1 : (if r1 = true then none
        else assocGet cache (Jsonl.create_cache_key (pathStr p))) with _ | entry
    · simp only []
      rw [json_loadBody_ok env1 cache (pathStr p) cs co rows hread hw]
      simp only []
      rw [assocGet_assocSet_self]
      rfl
    · cases entry with
      | good d =>
          have hr1' : assocGet cache (Jsonl.create_cache_key (pathStr p)) = some (.good d) := by
            cases r1 <;> simp_all
          simp only []
          rw [hr1']
          rfl
      | corrupt e =>
          simp only []
          rw [json_loadBody_ok env1 cache (pathStr p) cs co rows hread hw]
          simp only []
          rw [assocGet_assocSet_self]
          rfl

/-- A healthy JSON environment. -/
def jsonEnvHappy : Jsonl.Env where
  read := fun _ => .ok ["name: a, qty: 1", "name: b, qty: 2"]
  split := fun _ _ t => [t]
  writeOk := true

/-- Witness for C7: concrete repeated calls on a text and a JSON source both
reproduce the first call's result exactly. -/
theorem c7_identical_source_identical_cached_output_witness :
    Txt.load_and_process_txt txtEnvHappy
        (Txt.load_and_process_txt txtEnvHappy [] "notes.txt" 1000 200 false).2
        "notes.txt" 1000 200 false
      = Txt.load_and_process_txt txtEnvHappy [] "notes.txt" 1000 200 false
    ∧ Jsonl.load_and_process_json jsonEnvHappy
        (Jsonl.load_and_process_json jsonEnvHappy [] "data.json" 1000 200 false).2
        "data.json" 1000 200 false
      = Jsonl.load_and_process_json jsonEnvHappy [] "data.json" 1000 200 false :=
  ⟨c7_identical_source_identical_cached_output.1 txtEnvHappy txtEnvHappy [] "notes.txt"
     1000 200 false "text from disk" rfl rfl,
   c7_identical_source_identical_cached_output.2 jsonEnvHappy jsonEnvHappy [] "data.json"
     1000 200 false ["name: a, qty: 1", "name: b, qty: 2"] rfl rfl⟩

/-! ## Claim C8 -/

/-- Stale chunks planted under the key md5(source string) for the C8
counterexample. -/
def docsStale : List Document :=
  [Document.mk "stale cached chunk" [("source_file", "docs//a.txt")]]

/-- Counterexample to C8 as stated: for the text loader the cache key is NOT
the digest of the source string itself. load_and_process_txt first converts
file_path with Path(file_path), so for the source "docs//a.txt" it hashes
the normalized "docs/a.txt". A cache entry stored under
md5("docs//a.txt") — where the claim says the loader looks — is missed, and
the loader reprocesses the file instead of returning the planted chunks. -/
theorem c8_counterexample_txt_key_not_source_digest :
    (Txt.load_and_process_txt txtEnvHappy [(md5Hex "docs//a.txt", .good docsStale)]
        "docs//a.txt" 1000 200 false).1 ≠ docsStale := by
  decide

/-- C8 amended: every cache key is an MD5 hex digest; the hashed canonical
string is the raw source string for the web and PDF loaders, the
pathlib-normalized path string str(Path(p)) for the text and JSON loaders,
and path ++ "_" ++ delimiter for the CSV loader. Accordingly, a good cache
entry under exactly that key is what each loader returns when refresh is not
forced. -/
theorem c8_cache_key_canonical_string_amended :
    (∀ (url : String), Web.create_cache_key url = md5Hex url)
  ∧ (∀ (s : String), Pdf.create_cache_key s = md5Hex s)
  ∧ (∀ (p d : String), Csv.create_cache_key p d = md5Hex (p ++ "_" ++ d))
  ∧ (∀ (p : String), Txt.create_cache_key (pathStr p) = md5Hex (pathStr p))
  ∧ (∀ (env : Txt.Env) (cache : Cache) (p : String) (cs co : Nat) (docs : List Document),
      assocGet cache (md5Hex (pathStr p)) = some (.good docs) →
      Txt.load_and_process_txt env cache p cs co false = (docs, cache))
  ∧ (∀ (env : Jsonl.Env) (cache : Cache) (p : String) (cs co : Nat) (docs : List Document),
      assocGet cache (md5Hex (pathStr p)) = some (.good docs) →
      Jsonl.load_and_process_json env cache p cs co false = (docs, cache))
  ∧ (∀ (env : Csv.Env) (cache : Cache) (p d : String) (cs co : Nat) (docs : List Document),
      assocGet cache (md5Hex (p ++ "_" ++ d)) = some (.good docs) →
      Csv.load_and_process_csv env cache p d cs co false = (docs, cache)) := by
  refine ⟨fun _ => rfl, fun _ => rfl, fun _ _ => rfl, fun _ => rfl, ?_, ?_, ?_⟩
  · intro env cache p cs co docs hc
    simp only [Txt.load_and_process_txt]
    rw [show Txt.create_cache_key (pathStr p) = md5Hex (pathStr p) from rfl, hc]
    rfl
  · intro env cache p cs co docs hc
    simp only [Jsonl.load_and_process_json]
    rw [show Jsonl.create_cache_key (pathStr p) = md5Hex (pathStr p) from rfl, hc]
    rfl
  · intro env cache p d cs co docs hc
    unfold Csv.load_and_process_csv
    rw [show Csv.create_cache_key p d = md5Hex (p ++ "_" ++ d) from rfl, hc]
    rfl

/-- Witness for C8 (amended): planted entries under the amended keys are
returned by the text, JSON and CSV loaders. -/
theorem c8_cache_key_canonical_string_amended_witness :
    Txt.load_and_process_txt txtEnvHappy [(md5Hex "docs/a.txt", .good docsStale)]
        "docs//a.txt" 1000 200 false
      = (docsStale, [(md5Hex "docs/a.txt", .good docsStale)])
    ∧ Jsonl.load_and_process_json jsonEnvHappy
        [(md5Hex "data.json", .good [Document.mk "j" [("source_file", "data.json")]])]
        "data.json" 1000 200 false
      = ([Document.mk "j" [("source_file", "data.json")]],
         [(md5Hex "data.json", .good [Document.mk "j" [("source_file", "data.json")]])])
    ∧ Csv.load_and_process_csv csvEnvReadFail
        [(md5Hex "data.csv_,", .good [Document.mk "c" [("source_file", "data.csv")]])]
        "data.csv" "," 1000 200 false
      = ([Document.mk "c" [("source_file", "data.csv")]],
         [(md5Hex "data.csv_,", .good [Document.mk "c" [("source_file", "data.csv")]])]) :=
  ⟨c8_cache_key_canonical_string_amended.2.2.2.2.1 txtEnvHappy
     [(md5Hex "docs/a.txt", .good docsStale)] "docs//a.txt" 1000 200 docsStale (by decide),
   c8_cache_key_canonical_string_amended.2.2.2.2.2.1 jsonEnvHappy
     [(md5Hex "data.json", .good [Document.mk "j" [("source_file", "data.json")]])]
     "data.json" 1000 200 [Document.mk "j" [("source_file", "data.json")]] (by decide),
   c8_cache_key_canonical_string_amended.2.2.2.2.2.2 csvEnvReadFail
     [(md5Hex "data.csv_,", .good [Document.mk "c" [("source_file", "data.csv")]])]
     "data.csv" "," 1000 200 [Document.mk "c" [("source_file", "data.csv")]] (by decide)⟩
